import Mathlib

set_option maxRecDepth 8000

/-!
Shallow embedding of the `hitrace` crate family (hitrace, hitrace-macro)
and verification of its specification claims.

Definitions (in source order):
1. Level model (`src/hitrace/src/api_19.rs`): `HiTraceOutputLevel`,
   conversions to/from the native sink level and from `tracing_core::Level`.
2. Saturating integer conversion (`src/hitrace/src/lib.rs` 153-197):
   the `SaturatingIntoI64` impls, modelled over `ℤ` with explicit
   two's-complement casts.
3. Span primitive and `ScopedTrace` guard (`src/hitrace/src/lib.rs`):
   the sink modelled as an event list (the `target_env = ohos`,
   `max_level_off` disabled configuration, where the sink calls are real),
   and Rust scope/drop semantics as a statement interpreter.
4. Procedural transform (`src/macro/src/lib.rs`): `trace_fn_` and
   `trace_all_fns_in_mod` as AST transforms; a proc-macro `panic!`/`todo!`
   is a build failure, modelled as `Except.error`.
5. Auto-trait (Send/Sync) derivation for the guard type, following the
   Rust rules: raw pointers are neither Send nor Sync, `PhantomData<T>`
   inherits from `T`, a struct inherits from its fields.

All theorems follow the definitions.
-/

namespace Hitrace

/-! ### 1. Level model (src/hitrace/src/api_19.rs) -/

/-- Source `HiTraceOutputLevel` from `api_19.rs`: Debug = 0, Info = 1, Critical = 2,
Commercial = 3, Max = 4. -/
inductive HiTraceOutputLevel
  | Debug
  | Info
  | Critical
  | Commercial
  | Max
  deriving DecidableEq

/-- Modelled from the spec: the native `HiTrace_Output_Level` type lives in
the `hitrace-sys` crate, which is not among the provided sources; the spec
describes it as a raw integer scheme ("a four-valued scheme with values
0-3"), so a raw native level is modelled as an integer. -/
def HiTrace_Output_Level : Type := ℤ

/-- Modelled from the spec: native code `HITRACE_LEVEL_DEBUG` = 0. -/
def HITRACE_LEVEL_DEBUG : ℤ := 0

/-- Modelled from the spec: native code `HITRACE_LEVEL_INFO` = 1. -/
def HITRACE_LEVEL_INFO : ℤ := 1

/-- Modelled from the spec: native code `HITRACE_LEVEL_CRITICAL` = 2. -/
def HITRACE_LEVEL_CRITICAL : ℤ := 2

/-- Modelled from the spec: native code `HITRACE_LEVEL_COMMERCIAL` = 3. -/
def HITRACE_LEVEL_COMMERCIAL : ℤ := 3

/-- Modelled from the spec: the native sentinel `HITRACE_LEVEL_MAX`; the
source comment in `api_19.rs` ("the OG one is also 3???") records that the
native header gives it the same value 3 as `HITRACE_LEVEL_COMMERCIAL`. -/
def HITRACE_LEVEL_MAX : ℤ := 3

/-- Source `impl From<HiTrace_Output_Level> for HiTraceOutputLevel`
(`api_19.rs` lines 25-35): match arms in source order, with the wildcard
arm mapping everything unrecognized to `Max`. -/
def hiTraceOutputLevel_from_native (level : ℤ) : HiTraceOutputLevel :=
  if level = HITRACE_LEVEL_DEBUG then .Debug
  else if level = HITRACE_LEVEL_INFO then .Info
  else if level = HITRACE_LEVEL_CRITICAL then .Critical
  else if level = HITRACE_LEVEL_COMMERCIAL then .Commercial
  else .Max

/-- Source `impl From<HiTraceOutputLevel> for HiTrace_Output_Level`
(`api_19.rs` lines 37-47). -/
def hiTraceOutputLevel_to_native : HiTraceOutputLevel → ℤ
  | .Info => HITRACE_LEVEL_INFO
  | .Debug => HITRACE_LEVEL_DEBUG
  | .Critical => HITRACE_LEVEL_CRITICAL
  | .Commercial => HITRACE_LEVEL_COMMERCIAL
  | .Max => HITRACE_LEVEL_MAX

/-- The five-valued severity scale of `tracing_core::Level`
(most-verbose to least: TRACE, DEBUG, INFO, WARN, ERROR). -/
inductive TracingLevel
  | TRACE
  | DEBUG
  | INFO
  | WARN
  | ERROR
  deriving DecidableEq

/-- Source `impl From<tracing_core::Level> for HiTraceOutputLevel`
(`api_19.rs` lines 49-60): the ordinal-preserving table
TRACE→Debug, DEBUG→Info, INFO→Critical, WARN→Commercial, ERROR→Max. -/
def hiTraceOutputLevel_from_tracing : TracingLevel → HiTraceOutputLevel
  | .TRACE => .Debug
  | .DEBUG => .Info
  | .INFO => .Critical
  | .WARN => .Commercial
  | .ERROR => .Max

/-! ### 2. Saturating integer conversion (src/hitrace/src/lib.rs 153-197)

Machine integers are modelled as integers in the source type's range; Rust
`as` casts are modelled explicitly as reduction modulo `2^w` (unsigned) or
two's-complement reduction (signed), so that both value-preserving widening
casts and truncating casts are captured faithfully. -/

/-- Source `i64::MAX`. -/
def i64MAX : ℤ := 2 ^ 63 - 1

/-- Source `i64::MIN`. -/
def i64MIN : ℤ := -(2 ^ 63)

/-- Rust `as uW` cast: reduction into `[0, 2^w)`. -/
def asCastU (w : ℕ) (x : ℤ) : ℤ := x % 2 ^ w

/-- Rust `as iW` cast: two's-complement reduction into
`[-2^(w-1), 2^(w-1))`. -/
def asCastS (w : ℕ) (x : ℤ) : ℤ :=
  if x % 2 ^ w < 2 ^ (w - 1) then x % 2 ^ w else x % 2 ^ w - 2 ^ w

/-- Source `impl SaturatingIntoI64 for u64`: `self.min(i64::MAX as u64) as i64`. -/
def saturatingInto_u64 (x : ℤ) : ℤ := asCastS 64 (min x (asCastU 64 i64MAX))

/-- Source `impl SaturatingIntoI64 for i128`: compare against `i64::MAX as i128`
and `i64::MIN as i128`, else `self as i64`. -/
def saturatingInto_i128 (x : ℤ) : ℤ :=
  if x > asCastS 128 i64MAX then i64MAX
  else if x < asCastS 128 i64MIN then i64MIN
  else asCastS 64 x

/-- Source `impl SaturatingIntoI64 for u128`: `self.min(i64::MAX as u128) as i64`. -/
def saturatingInto_u128 (x : ℤ) : ℤ := asCastS 64 (min x (asCastU 128 i64MAX))

/-- Source `impl SaturatingIntoI64 for usize`: `self.min(i64::MAX as usize) as i64`,
parameterized by the target's pointer width `w`. -/
def saturatingInto_usize (w : ℕ) (x : ℤ) : ℤ :=
  asCastS 64 (min x (asCastU w i64MAX))

/-- Source `impl SaturatingIntoI64 for isize`: compare against `i64::MAX as isize`
and `i64::MIN as isize`, else `self as i64`, parameterized by the target's
pointer width `w`. -/
def saturatingInto_isize (w : ℕ) (x : ℤ) : ℤ :=
  if x > asCastS w i64MAX then i64MAX
  else if x < asCastS w i64MIN then i64MIN
  else asCastS 64 x

/-! ### 3. Span primitive and ScopedTrace guard (src/hitrace/src/lib.rs)

The external sink is modelled as the list of events it has observed; a span
name is the C-string content handed to the sink (the bytes before the
terminator). -/

/-- The null terminator byte. -/
def nullChar : Char := Char.ofNat 0

/-- A one-character string holding just the terminator (the `"\0"` literal
appended by the procedural transform). -/
def nullStr : String := String.singleton nullChar

/-- An event observed by the native sink: a span start (with the name the
sink reads), a span finish, or an observable action of the user's own code
(not a sink call, recorded to express ordering). -/
inductive Event
  | start (name : String)
  | finish
  | body (tag : String)
  deriving DecidableEq

/-- The state of the external sink: the sequence of observed events. -/
structure Sink where
  events : List Event
  deriving DecidableEq

/-- Source `start_trace` / `start_trace_cstr` (lib.rs 43-45, 60-66): forwards the
name to `OH_HiTrace_StartTrace`, appending one start event. -/
def start_trace (name : String) (s : Sink) : Sink :=
  ⟨s.events ++ [Event.start name]⟩

/-- Source `finish_trace` (lib.rs 85-100): calls `OH_HiTrace_FinishTrace`,
appending one finish event. -/
def finish_trace (s : Sink) : Sink :=
  ⟨s.events ++ [Event.finish]⟩

/-- Source `ScopedTrace` (lib.rs 199-202): a guard with no payload beyond the
`PhantomData<*mut u8>` marker. -/
inductive ScopedTrace
  | mk
  deriving DecidableEq

/-- Source `ScopedTrace::start_trace` (lib.rs 211-217): calls the free
`start_trace`, then returns the guard. -/
def ScopedTrace.start_trace (name : String) (s : Sink) : ScopedTrace × Sink :=
  (ScopedTrace.mk, Hitrace.start_trace name s)

/-- Source `CString::new`: fails exactly when the input contains an embedded
terminator byte (panic message prefix from `expect` in lib.rs 226). -/
def cstringNew (name : String) : Except String String :=
  if nullChar ∈ name.data then .error "Contained null-byte" else .ok name

/-- Source `ScopedTrace::start_trace_str` (lib.rs 225-227):
`Self::start_trace(&CString::new(name).expect("Contained null-byte"))`.
The panic is modelled as `Except.error`; the sink state is returned on both
paths so that the absence of side effects on the panic path is visible. -/
def ScopedTrace.start_trace_str (name : String) (s : Sink) :
    Except String ScopedTrace × Sink :=
  match cstringNew name with
  | .error e => (.error e, s)
  | .ok c =>
    let p := ScopedTrace.start_trace c s
    (.ok p.1, p.2)

/-- The C-string content of a byte string: the bytes before the first
terminator (what the sink reads from the raw pointer). -/
def cstrContent (s : String) : String :=
  ⟨s.data.takeWhile (fun c => c != nullChar)⟩

/-- Safety precondition of `ScopedTrace::_start_trace_str_with_null`
(lib.rs 232-243): the slice must be a valid null-terminated C-style string,
i.e. it contains a terminator, so the sink's read stays in bounds. -/
def cstrSafe (s : String) : Prop := nullChar ∈ s.data

/-- Source `ScopedTrace::_start_trace_str_with_null` (lib.rs 231-243): passes the
raw pointer of the slice to `OH_HiTrace_StartTrace`; the sink reads the
bytes up to the terminator. -/
def ScopedTrace.start_trace_str_with_null (nameWithNull : String) (s : Sink) :
    ScopedTrace × Sink :=
  (ScopedTrace.mk, ⟨s.events ++ [Event.start (cstrContent nameWithNull)]⟩)

/-- Source `impl Drop for ScopedTrace` (lib.rs 246-250): `finish_trace()`. -/
def ScopedTrace.drop (_ : ScopedTrace) (s : Sink) : Sink := finish_trace s

/-! Rust block semantics: statements of a function body, interpreted against
the sink. Guards are dropped — in every exit mode — when the scope ends,
which is exactly Rust's drop guarantee. -/

/-- A statement of a (possibly transformed) function body. -/
inductive RStmt
  /-- Source `let g = ScopedTrace::start_trace(&name);` -/
  | openGuard (name : String)
  /-- Source `const id: &str = v;` (the constant injected by the transform). -/
  | constStr (id : String) (v : String)
  /-- Source `let guard = unsafe { ScopedTrace::_start_trace_str_with_null(cid) };` -/
  | letGuardWithNull (cid : String)
  /-- an arbitrary user statement that does not touch the sink. -/
  | work (tag : String)
  /-- an early `return`. -/
  | ret
  /-- a `panic!` that unwinds. -/
  | unwindNow
  deriving DecidableEq

/-- Constant environment lookup (by identifier). -/
def lookupConst (env : List (String × String)) (id : String) : String :=
  ((env.find? (fun p => p.1 == id)).map Prod.snd).getD ""

/-- Dropping `n` live guards: each drop runs `ScopedTrace::drop`. -/
def appendFinishes : ℕ → Sink → Sink
  | 0, s => s
  | n + 1, s => appendFinishes n (ScopedTrace.drop ScopedTrace.mk s)

/-- Interpreter for a function body: `env` is the constant environment,
`gs` the number of live guards. On scope end — normal, early return, or
unwind — all live guards are dropped (Rust runs destructors on every exit
path). -/
def runStmts : List RStmt → List (String × String) → ℕ → Sink → Sink
  | [], _, gs, s => appendFinishes gs s
  | .openGuard n :: r, env, gs, s =>
      runStmts r env (gs + 1) (ScopedTrace.start_trace n s).2
  | .constStr id v :: r, env, gs, s => runStmts r ((id, v) :: env) gs s
  | .letGuardWithNull cid :: r, env, gs, s =>
      runStmts r env (gs + 1)
        (ScopedTrace.start_trace_str_with_null (lookupConst env cid) s).2
  | .work t :: r, env, gs, s => runStmts r env gs ⟨s.events ++ [Event.body t]⟩
  | .ret :: _, _, gs, s => appendFinishes gs s
  | .unwindNow :: _, _, gs, s => appendFinishes gs s

/-- How the enclosing scope exits: normally, by early return, or by
unwinding. -/
inductive ExitMode
  | normal
  | earlyReturn
  | unwindPanic
  deriving DecidableEq

/-- The trailing statements realizing an exit mode. -/
def ExitMode.stmts : ExitMode → List RStmt
  | .normal => []
  | .earlyReturn => [.ret]
  | .unwindPanic => [.unwindNow]

/-! ### 4. Procedural transform (src/macro/src/lib.rs) -/

/-- A parsed `syn::ItemFn`: its name and body statements (signature parts
not touched by the transform are omitted). -/
structure ItemFn where
  name : String
  stmts : List RStmt
  deriving DecidableEq

/-- A parsed `syn::Item`: a function, or any other item kind. -/
inductive Item
  | fn (f : ItemFn)
  | other (kind : String)
  deriving DecidableEq

/-- The value of the injected constant
`concat!(module_path!(), "::", #fn_name, "\0")` (macro/src/lib.rs 49-51);
`module_path!()` expands at the use site to the fully-qualified module
path, passed here as `modPath`. -/
def spanNameConst (modPath fnName : String) : String :=
  modPath ++ "::" ++ fnName ++ nullStr

/-- Source `trace_fn_` (macro/src/lib.rs 42-62): on a function item, insert the
constant statement at position 0 and the guard construction at position 1;
on any other item, `panic!("Expected a function")` — a build failure,
modelled as `Except.error`. -/
def trace_fn_ (modPath : String) : Item → Except String Item
  | .fn f =>
    .ok (.fn ⟨f.name,
      .constStr "HITRACE_THIS_FN_NAME" (spanNameConst modPath f.name)
        :: .letGuardWithNull "HITRACE_THIS_FN_NAME"
        :: f.stmts⟩)
  | .other _ => .error "Expected a function"

/-- A parsed `syn::ItemMod`: its optional content. -/
structure ItemMod where
  content : Option (List Item)
  deriving DecidableEq

/-- Source `trace_all_fns_in_mod` (macro/src/lib.rs 64-67): binds the module
content, then `todo!()` — an unconditional build failure. -/
def trace_all_fns_in_mod (input_mod : ItemMod) : Except String Item :=
  let _elements := input_mod.content
  .error "not yet implemented"

/-! ### 5. Auto-trait (Send/Sync) derivation for ScopedTrace -/

/-- The fragment of Rust types needed for `ScopedTrace`
(`struct ScopedTrace { phantom_data: PhantomData<*mut u8> }`). -/
inductive RustTy
  | u8
  | mutRawPtr (t : RustTy)
  | phantomData (t : RustTy)
  | structOf (field : RustTy)
  deriving DecidableEq

/-- Rust's `Send` auto-trait derivation on this fragment: `u8` is Send,
raw pointers are not, `PhantomData<T>` is Send iff `T` is, a struct is
Send iff its field is. -/
def isSendTy : RustTy → Bool
  | .u8 => true
  | .mutRawPtr _ => false
  | .phantomData t => isSendTy t
  | .structOf t => isSendTy t

/-- Rust's `Sync` auto-trait derivation on this fragment: `u8` is Sync,
raw pointers are not, `PhantomData<T>` is Sync iff `T` is, a struct is
Sync iff its field is. -/
def isSyncTy : RustTy → Bool
  | .u8 => true
  | .mutRawPtr _ => false
  | .phantomData t => isSyncTy t
  | .structOf t => isSyncTy t

/-- The type of `ScopedTrace` (lib.rs 199-202). -/
def scopedTraceTy : RustTy := .structOf (.phantomData (.mutRawPtr .u8))

end Hitrace

namespace Hitrace

/-! ### Theorems: level model -/

/-- C1 (counterexample): contrary to the claim, the conversion from
`tracing_core::Level` maps ERROR to the `Max` sentinel (not to one of the
four informative levels), and it does NOT merge TRACE and DEBUG into one
bucket: TRACE maps to `Debug` while DEBUG maps to `Info`. -/
theorem c1_counterexample :
    hiTraceOutputLevel_from_tracing .ERROR = HiTraceOutputLevel.Max ∧
    hiTraceOutputLevel_from_tracing .TRACE ≠
      hiTraceOutputLevel_from_tracing .DEBUG := by
  decide

/-- C1 (amended): the conversion from `tracing_core::Level` is the total
ordinal-preserving table TRACE→Debug, DEBUG→Info, INFO→Critical,
WARN→Commercial, ERROR→Max: the least-verbose severity (Error) lands on the
`Max` sentinel, and the two most-verbose severities (Trace, Debug) land in
distinct buckets. -/
theorem c1_ordinal_preserving_conversion :
    hiTraceOutputLevel_from_tracing .TRACE = HiTraceOutputLevel.Debug ∧
    hiTraceOutputLevel_from_tracing .DEBUG = HiTraceOutputLevel.Info ∧
    hiTraceOutputLevel_from_tracing .INFO = HiTraceOutputLevel.Critical ∧
    hiTraceOutputLevel_from_tracing .WARN = HiTraceOutputLevel.Commercial ∧
    hiTraceOutputLevel_from_tracing .ERROR = HiTraceOutputLevel.Max ∧
    hiTraceOutputLevel_from_tracing .TRACE ≠
      hiTraceOutputLevel_from_tracing .DEBUG := by
  decide

/-- C7: the conversion from the native sink level is total (it is a Lean
function on all of `ℤ`) and never fails: each recognized native code maps to
the corresponding `HiTraceOutputLevel` variant, and every raw value distinct
from the recognized codes maps to the `Max` sentinel. -/
theorem c7_from_native_total :
    (hiTraceOutputLevel_from_native HITRACE_LEVEL_DEBUG = .Debug ∧
     hiTraceOutputLevel_from_native HITRACE_LEVEL_INFO = .Info ∧
     hiTraceOutputLevel_from_native HITRACE_LEVEL_CRITICAL = .Critical ∧
     hiTraceOutputLevel_from_native HITRACE_LEVEL_COMMERCIAL = .Commercial) ∧
    ∀ raw : ℤ, raw ≠ HITRACE_LEVEL_DEBUG → raw ≠ HITRACE_LEVEL_INFO →
      raw ≠ HITRACE_LEVEL_CRITICAL → raw ≠ HITRACE_LEVEL_COMMERCIAL →
      hiTraceOutputLevel_from_native raw = .Max := by
  refine ⟨by decide, ?_⟩
  intro raw h0 h1 h2 h3
  simp [hiTraceOutputLevel_from_native, h0, h1, h2, h3]

/-- C7 (witness): the raw value 7 is unrecognized and folds to `Max`. -/
theorem c7_from_native_total_witness :
    hiTraceOutputLevel_from_native 7 = .Max :=
  c7_from_native_total.2 7 (by decide) (by decide) (by decide) (by decide)

/-! ### Theorems: saturating integer conversion -/

/-- Two's-complement reduction at width 64 is the identity on the i64
range. -/
theorem asCastS_64_eq_self (x : ℤ) (hlo : i64MIN ≤ x) (hhi : x ≤ i64MAX) :
    asCastS 64 x = x := by
  unfold asCastS
  unfold i64MIN at hlo
  unfold i64MAX at hhi
  norm_num
  split <;> omega

/-- Two's-complement reduction at width 128 is the identity on the i64
range (covers the widening casts `i64::MAX as i128`, `i64::MIN as i128`). -/
theorem asCastS_128_eq_self (x : ℤ) (hlo : i64MIN ≤ x) (hhi : x ≤ i64MAX) :
    asCastS 128 x = x := by
  unfold asCastS
  unfold i64MIN at hlo
  unfold i64MAX at hhi
  norm_num
  split <;> omega

/-- Source `u64::saturating_into`: exact on the representable range, clamped to
`i64::MAX` above it; in particular `u64::MAX` converts to `i64::MAX`. -/
theorem saturatingInto_u64_spec (x : ℤ) (h0 : 0 ≤ x) (h1 : x < 2 ^ 64) :
    (x ≤ i64MAX → saturatingInto_u64 x = x) ∧
    (i64MAX < x → saturatingInto_u64 x = i64MAX) := by
  have hcast : asCastU 64 i64MAX = i64MAX := by decide
  constructor
  · intro hle
    unfold saturatingInto_u64
    rw [hcast, min_eq_left hle]
    exact asCastS_64_eq_self x (by unfold i64MIN; omega) hle
  · intro hgt
    unfold saturatingInto_u64
    rw [hcast, min_eq_right (le_of_lt hgt)]
    exact asCastS_64_eq_self i64MAX (by decide) (by decide)

theorem saturatingInto_u64_spec_witness :
    saturatingInto_u64 5 = 5 ∧ saturatingInto_u64 (2 ^ 64 - 1) = i64MAX := by
  constructor
  · exact (saturatingInto_u64_spec 5 (by norm_num) (by norm_num)).1 (by decide)
  · exact (saturatingInto_u64_spec (2 ^ 64 - 1) (by norm_num) (by norm_num)).2
      (by decide)

/-- Source `i128::saturating_into`: exact on the representable range, clamped to
`i64::MAX`/`i64::MIN` outside it; in particular `i128::MIN` converts to
`i64::MIN`. -/
theorem saturatingInto_i128_spec (x : ℤ) (h0 : -(2 ^ 127) ≤ x)
    (h1 : x < 2 ^ 127) :
    (i64MIN ≤ x → x ≤ i64MAX → saturatingInto_i128 x = x) ∧
    (i64MAX < x → saturatingInto_i128 x = i64MAX) ∧
    (x < i64MIN → saturatingInto_i128 x = i64MIN) := by
  have hmax : asCastS 128 i64MAX = i64MAX :=
    asCastS_128_eq_self i64MAX (by decide) (by decide)
  have hmin : asCastS 128 i64MIN = i64MIN :=
    asCastS_128_eq_self i64MIN (by decide) (by decide)
  refine ⟨?_, ?_, ?_⟩
  · intro hlo hhi
    unfold saturatingInto_i128
    rw [hmax, hmin, if_neg (by omega), if_neg (by omega)]
    exact asCastS_64_eq_self x hlo hhi
  · intro hgt
    unfold saturatingInto_i128
    rw [hmax, if_pos (by omega)]
  · intro hlt
    have : ¬ (x > i64MAX) := by unfold i64MIN i64MAX at *; omega
    unfold saturatingInto_i128
    rw [hmax, hmin, if_neg this, if_pos (by omega)]

theorem saturatingInto_i128_spec_witness :
    saturatingInto_i128 (-5) = -5 ∧
    saturatingInto_i128 (-(2 ^ 127)) = i64MIN := by
  constructor
  · exact (saturatingInto_i128_spec (-5) (by norm_num) (by norm_num)).1
      (by decide) (by decide)
  · exact (saturatingInto_i128_spec (-(2 ^ 127)) (by norm_num)
      (by norm_num)).2.2 (by decide)

/-- Source `u128::saturating_into`: exact on the representable range, clamped to
`i64::MAX` above it; in particular `u128::MAX` converts to `i64::MAX`. -/
theorem saturatingInto_u128_spec (x : ℤ) (h0 : 0 ≤ x) (h1 : x < 2 ^ 128) :
    (x ≤ i64MAX → saturatingInto_u128 x = x) ∧
    (i64MAX < x → saturatingInto_u128 x = i64MAX) := by
  have hcast : asCastU 128 i64MAX = i64MAX := by decide
  constructor
  · intro hle
    unfold saturatingInto_u128
    rw [hcast, min_eq_left hle]
    exact asCastS_64_eq_self x (by unfold i64MIN; omega) hle
  · intro hgt
    unfold saturatingInto_u128
    rw [hcast, min_eq_right (le_of_lt hgt)]
    exact asCastS_64_eq_self i64MAX (by decide) (by decide)

theorem saturatingInto_u128_spec_witness :
    saturatingInto_u128 (2 ^ 128 - 1) = i64MAX :=
  (saturatingInto_u128_spec (2 ^ 128 - 1) (by norm_num) (by norm_num)).2
    (by decide)

/-- Source `usize::saturating_into` on 64-bit targets: exact on the representable
range, clamped to `i64::MAX` above it. -/
theorem saturatingInto_usize_64_spec (x : ℤ) (h0 : 0 ≤ x) (h1 : x < 2 ^ 64) :
    (x ≤ i64MAX → saturatingInto_usize 64 x = x) ∧
    (i64MAX < x → saturatingInto_usize 64 x = i64MAX) := by
  have h := saturatingInto_u64_spec x h0 h1
  exact h

/-- Source `usize::saturating_into` on 32-bit targets: every `usize` value is
representable and converts exactly (here `i64::MAX as usize` truncates to
`usize::MAX`, so the `min` is the identity). -/
theorem saturatingInto_usize_32_spec (x : ℤ) (h0 : 0 ≤ x) (h1 : x < 2 ^ 32) :
    saturatingInto_usize 32 x = x := by
  have hcast : asCastU 32 i64MAX = 2 ^ 32 - 1 := by decide
  unfold saturatingInto_usize
  rw [hcast, min_eq_left (by omega)]
  exact asCastS_64_eq_self x (by unfold i64MIN; omega)
    (by unfold i64MAX; omega)

theorem saturatingInto_usize_32_spec_witness :
    saturatingInto_usize 32 (2 ^ 32 - 1) = 2 ^ 32 - 1 :=
  saturatingInto_usize_32_spec (2 ^ 32 - 1) (by norm_num) (by norm_num)

theorem saturatingInto_usize_64_spec_witness :
    saturatingInto_usize 64 (2 ^ 64 - 1) = i64MAX :=
  (saturatingInto_usize_64_spec (2 ^ 64 - 1) (by norm_num) (by norm_num)).2
    (by decide)

/-- Source `isize::saturating_into` on 64-bit targets: every `isize` value is in
the i64 range and converts exactly (the comparison bounds are the
value-preserving casts of `i64::MAX` and `i64::MIN`). -/
theorem saturatingInto_isize_64_spec (x : ℤ) (hlo : i64MIN ≤ x)
    (hhi : x ≤ i64MAX) : saturatingInto_isize 64 x = x := by
  have hmax : asCastS 64 i64MAX = i64MAX :=
    asCastS_64_eq_self i64MAX (by decide) (by decide)
  have hmin : asCastS 64 i64MIN = i64MIN :=
    asCastS_64_eq_self i64MIN (by decide) (by decide)
  unfold saturatingInto_isize
  rw [hmax, hmin, if_neg (by omega), if_neg (by omega)]
  exact asCastS_64_eq_self x hlo hhi

theorem saturatingInto_isize_64_spec_witness :
    saturatingInto_isize 64 (-7) = -7 :=
  saturatingInto_isize_64_spec (-7) (by decide) (by decide)

/-- C3 (code bug, evaluated at the failing input): on a 32-bit target the
`isize` impl computes its upper bound as `i64::MAX as isize`, which
truncates to `-1`; consequently the in-range values 0 and 5 "saturate" to
`i64::MAX` and `-3` to `i64::MIN` instead of converting exactly, violating
the conversion contract. -/
theorem c3_isize_truncation_bug :
    asCastS 32 i64MAX = -1 ∧
    saturatingInto_isize 32 0 = i64MAX ∧
    saturatingInto_isize 32 5 = i64MAX ∧
    saturatingInto_isize 32 (-3) = i64MIN ∧
    i64MIN ≤ 0 ∧ (0 : ℤ) ≤ i64MAX ∧ i64MAX ≠ 0 := by
  refine ⟨by decide, ?_, ?_, ?_, by decide, by decide, by decide⟩ <;> decide

/-- C8: for each of the four defined `HiTraceOutputLevel` values,
`to_native (from_native (to_native level))` equals `to_native level`:
the round trip is the identity on the native side. -/
theorem c8_native_round_trip :
    (hiTraceOutputLevel_to_native (hiTraceOutputLevel_from_native
      (hiTraceOutputLevel_to_native .Debug)) =
        hiTraceOutputLevel_to_native HiTraceOutputLevel.Debug) ∧
    (hiTraceOutputLevel_to_native (hiTraceOutputLevel_from_native
      (hiTraceOutputLevel_to_native .Info)) =
        hiTraceOutputLevel_to_native HiTraceOutputLevel.Info) ∧
    (hiTraceOutputLevel_to_native (hiTraceOutputLevel_from_native
      (hiTraceOutputLevel_to_native .Critical)) =
        hiTraceOutputLevel_to_native HiTraceOutputLevel.Critical) ∧
    (hiTraceOutputLevel_to_native (hiTraceOutputLevel_from_native
      (hiTraceOutputLevel_to_native .Commercial)) =
        hiTraceOutputLevel_to_native HiTraceOutputLevel.Commercial) := by
  decide

/-! ### Theorems: ScopedTrace lifecycle -/

/-- Running a prefix of sink-neutral user statements just records their
body events. -/
theorem runStmts_works (body : List String) :
    ∀ (rest : List RStmt) (env : List (String × String)) (gs : ℕ) (s : Sink),
      runStmts (body.map RStmt.work ++ rest) env gs s
        = runStmts rest env gs ⟨s.events ++ body.map Event.body⟩ := by
  induction body with
  | nil => intro rest env gs s; simp
  | cons t ts ih =>
      intro rest env gs s
      simp only [List.map_cons, List.cons_append, runStmts, List.append_eq]
      rw [ih]
      simp

/-- After a body of sink-neutral statements, every exit mode — normal end
of scope, early return, or unwinding — drops the single live guard,
appending exactly one finish event. -/
theorem runStmts_body_exit (body : List String) (m : ExitMode)
    (env : List (String × String)) (s : Sink) :
    runStmts (body.map RStmt.work ++ m.stmts) env 1 s
      = ⟨s.events ++ body.map Event.body ++ [Event.finish]⟩ := by
  rw [runStmts_works body m.stmts env 1 s]
  cases m <;> rfl

/-- C2: (a) `ScopedTrace::start_trace` emits exactly one start call to the
sink before returning the guard; (b) dropping the guard emits exactly one
finish call; (c) for a scope that opens a guard, runs any sink-neutral
body, and exits normally, by early return, or by unwinding, the sink
observes exactly one start followed (after the body's own events, which
contain no spans) by exactly one finish. -/
theorem c2_scoped_trace_lifecycle :
    ∀ (name : String) (s : Sink),
      ((ScopedTrace.start_trace name s).2.events
          = s.events ++ [Event.start name]) ∧
      (∀ (g : ScopedTrace) (s' : Sink),
          (ScopedTrace.drop g s').events = s'.events ++ [Event.finish]) ∧
      (∀ (body : List String) (m : ExitMode),
          (runStmts (RStmt.openGuard name :: (body.map RStmt.work ++ m.stmts))
              [] 0 s).events
            = s.events ++ Event.start name
                :: (body.map Event.body ++ [Event.finish])) := by
  intro name s
  refine ⟨rfl, fun g s' => rfl, ?_⟩
  intro body m
  show (runStmts (body.map RStmt.work ++ m.stmts) [] 1
      (Hitrace.start_trace name s)).events = _
  rw [runStmts_body_exit]
  simp [start_trace]

/-! ### Theorems: fail-fast on embedded terminator (C6) -/

/-- C6: for every name containing an embedded terminator byte,
`ScopedTrace::start_trace_str` panics (the `expect` on `CString::new`,
message "Contained null-byte") before any call reaches the sink: the
result is the error and the sink state is returned unchanged — no start
event, no truncation. -/
theorem c6_start_trace_str_fail_fast :
    ∀ (name : String) (s : Sink), nullChar ∈ name.data →
      ScopedTrace.start_trace_str name s
        = (Except.error "Contained null-byte", s) := by
  intro name s h
  unfold ScopedTrace.start_trace_str cstringNew
  rw [if_pos h]

/-- C6 (witness): a concrete name with an embedded terminator, against the
empty sink. -/
theorem c6_start_trace_str_fail_fast_witness :
    ScopedTrace.start_trace_str (String.mk ['a', nullChar, 'b']) ⟨[]⟩
      = (Except.error "Contained null-byte", ⟨[]⟩) :=
  c6_start_trace_str_fail_fast (String.mk ['a', nullChar, 'b']) ⟨[]⟩
    (by simp)

/-! ### Theorems: the procedural transform -/

/-- Taking the bytes of a terminator-free string up to the terminator that
follows it recovers the string. -/
theorem takeWhile_append_null (l : List Char) (h : nullChar ∉ l) :
    (l ++ [nullChar]).takeWhile (fun c => c != nullChar) = l := by
  induction l with
  | nil => rfl
  | cons a t ih =>
      have ha : (a != nullChar) = true :=
        bne_iff_ne.mpr (fun e => h (e ▸ List.mem_cons_self a t))
      simp only [List.cons_append, List.takeWhile_cons, ha, if_true]
      rw [ih (fun hm => h (List.mem_cons_of_mem a hm))]

/-- The C-string content of `s ++ "\0"` is `s`, for terminator-free `s`. -/
theorem cstrContent_append_null (s : String) (h : nullChar ∉ s.data) :
    cstrContent (s ++ nullStr) = s := by
  unfold cstrContent
  have hdata : (s ++ nullStr).data = s.data ++ [nullChar] := by
    cases s with
    | mk l => rfl
  rw [hdata, takeWhile_append_null s.data h]

/-- The injected span-name constant decomposes into the fully-qualified
name's bytes followed by the terminator. -/
theorem spanNameConst_data (modPath fnName : String) :
    (spanNameConst modPath fnName).data
      = (modPath ++ "::" ++ fnName).data ++ [nullChar] := by
  cases modPath with
  | mk l =>
      cases fnName with
      | mk l' => rfl

/-- The fully-qualified name is terminator-free when the module path and
the function name are. -/
theorem fqName_null_free (modPath fnName : String)
    (hmp : nullChar ∉ modPath.data) (hfn : nullChar ∉ fnName.data) :
    nullChar ∉ (modPath ++ "::" ++ fnName).data := by
  intro hmem
  have : (modPath ++ "::" ++ fnName).data
      = modPath.data ++ [':', ':'] ++ fnName.data := by
    cases modPath with
    | mk l =>
        cases fnName with
        | mk l' => rfl
  rw [this] at hmem
  rcases List.mem_append.mp hmem with hmem' | hfn'
  · rcases List.mem_append.mp hmem' with hmp' | hcolon
    · exact hmp hmp'
    · have hne : nullChar ≠ ':' := by decide
      simp at hcolon
      exact hne hcolon
  · exact hfn hfn'

/-- The C-string content of the injected constant is the fully-qualified
function name. -/
theorem cstrContent_spanNameConst (modPath fnName : String)
    (hmp : nullChar ∉ modPath.data) (hfn : nullChar ∉ fnName.data) :
    cstrContent (spanNameConst modPath fnName) = modPath ++ "::" ++ fnName :=
  cstrContent_append_null (modPath ++ "::" ++ fnName)
    (fqName_null_free modPath fnName hmp hfn)

/-- Looking the injected constant back up in the singleton environment. -/
theorem lookupConst_single (id v : String) : lookupConst [(id, v)] id = v := by
  simp [lookupConst, List.find?]

/-- C4: applying `trace_fn_` to a function definition yields a definition
whose body begins with (1) the constant statement holding the
null-terminated string "modPath::fnName\0" and (2) the guard construction
from that constant, followed by the original statements unchanged; running
the rewritten body under Rust scope semantics opens a span named
"modPath::fnName" as the first observable action and closes it as the last
action before return or unwind, with the original body's events in
between. -/
theorem c4_trace_fn_transform :
    ∀ (modPath fnName : String) (body : List String) (m : ExitMode)
      (s : Sink),
      nullChar ∉ modPath.data → nullChar ∉ fnName.data →
      (trace_fn_ modPath (.fn ⟨fnName, body.map RStmt.work ++ m.stmts⟩)
          = .ok (.fn ⟨fnName,
              RStmt.constStr "HITRACE_THIS_FN_NAME"
                  (spanNameConst modPath fnName)
                :: RStmt.letGuardWithNull "HITRACE_THIS_FN_NAME"
                :: (body.map RStmt.work ++ m.stmts)⟩)) ∧
      ((runStmts
            (RStmt.constStr "HITRACE_THIS_FN_NAME"
                (spanNameConst modPath fnName)
              :: RStmt.letGuardWithNull "HITRACE_THIS_FN_NAME"
              :: (body.map RStmt.work ++ m.stmts)) [] 0 s).events
          = s.events ++ Event.start (modPath ++ "::" ++ fnName)
              :: (body.map Event.body ++ [Event.finish])) := by
  intro mp fn body m s hmp hfn
  refine ⟨rfl, ?_⟩
  show (runStmts (body.map RStmt.work ++ m.stmts)
      [("HITRACE_THIS_FN_NAME", spanNameConst mp fn)] 1
      (ScopedTrace.start_trace_str_with_null
        (lookupConst [("HITRACE_THIS_FN_NAME", spanNameConst mp fn)]
          "HITRACE_THIS_FN_NAME") s).2).events = _
  rw [lookupConst_single, runStmts_body_exit]
  simp [ScopedTrace.start_trace_str_with_null,
    cstrContent_spanNameConst mp fn hmp hfn]

/-- C4 (witness): instrumenting `fn do_work` in module `crate` with a
one-statement body, run against the empty sink. -/
theorem c4_trace_fn_transform_witness :
    (runStmts
        (RStmt.constStr "HITRACE_THIS_FN_NAME" (spanNameConst "crate" "do_work")
          :: RStmt.letGuardWithNull "HITRACE_THIS_FN_NAME"
          :: [RStmt.work "step"]) [] 0 ⟨[]⟩).events
      = [Event.start "crate::do_work", Event.body "step", Event.finish] := by
  have h := c4_trace_fn_transform "crate" "do_work" ["step"] ExitMode.normal
    ⟨[]⟩ (by decide) (by decide)
  simpa using h.2

/-- C5: misusing either transform always fails the build: `trace_fn_`
applied to any non-function item panics with "Expected a function", and
`trace_all_fns_in_mod` reaches `todo!()` on every input — neither ever
produces output tokens. -/
theorem c5_misuse_fails_build :
    (∀ (modPath kind : String),
        trace_fn_ modPath (.other kind) = .error "Expected a function") ∧
    (∀ m : ItemMod, trace_all_fns_in_mod m = .error "not yet implemented") :=
  ⟨fun _ _ => rfl, fun _ => rfl⟩

/-- C10: for every terminator-free module path and function name (Rust
identifiers and paths cannot contain interior null bytes), the injected
constant `"modPath::fnName\0"` contains exactly one terminator byte, at the
very end; hence it satisfies the null-termination safety precondition of
`ScopedTrace::_start_trace_str_with_null`, and the name the sink reads is
exactly the fully-qualified function name. -/
theorem c10_span_name_constant_null_terminated :
    ∀ (modPath fnName : String),
      nullChar ∉ modPath.data → nullChar ∉ fnName.data →
      (spanNameConst modPath fnName).data.count nullChar = 1 ∧
      (spanNameConst modPath fnName).data.getLast? = some nullChar ∧
      cstrSafe (spanNameConst modPath fnName) ∧
      cstrContent (spanNameConst modPath fnName)
        = modPath ++ "::" ++ fnName := by
  intro mp fn hmp hfn
  have hfree := fqName_null_free mp fn hmp hfn
  have hdata := spanNameConst_data mp fn
  refine ⟨?_, ?_, ?_, cstrContent_spanNameConst mp fn hmp hfn⟩
  · rw [hdata, List.count_append, List.count_eq_zero.mpr hfree]
    rfl
  · rw [hdata]
    exact List.getLast?_concat _
  · unfold cstrSafe
    rw [hdata]
    exact List.mem_append.mpr (Or.inr (List.mem_singleton.mpr rfl))

/-- C10 (witness): the constant for `fn do_work` in module `crate::app`. -/
theorem c10_span_name_constant_witness :
    (spanNameConst "crate::app" "do_work").data.count nullChar = 1 ∧
    cstrContent (spanNameConst "crate::app" "do_work")
      = "crate::app" ++ "::" ++ "do_work" := by
  have h := c10_span_name_constant_null_terminated "crate::app" "do_work"
    (by decide) (by decide)
  exact ⟨h.1, h.2.2.2⟩

/-! ### Theorems: thread confinement of the guard type -/

/-- C9: under Rust's auto-trait rules, the `ScopedTrace` type — a struct
whose only field is `PhantomData<*mut u8>` — implements neither `Send` nor
`Sync`: any compile-time check for cross-thread transferability or
shareability rejects it. -/
theorem c9_guard_not_send_not_sync :
    isSendTy scopedTraceTy = false ∧ isSyncTy scopedTraceTy = false := by
  decide

end Hitrace
